import Mathlib

/-!
Shallow embedding of the ws2infer-js rendezvous server (Rust sources under
`src/`): the signaling envelope model (`src/signaling.rs`), the room and
room-manager state machine (`src/room.rs`), the STUN binding responder
(`src/stun.rs`) and the TURN relay-port counter (`src/turn.rs`), together
with theorems settling the frozen claims about them.

Modelling conventions:
* Rust `HashMap<String, V>` becomes an association list `List (String × V)`
  with `mapInsert` (replace-in-place or append), `mapRemove` and `mapGet?`;
  key sets and lookup behaviour coincide with the hash map, and iteration
  order is fixed to list order (the hash map's order is unspecified).
* `serde_json::Value` becomes the inductive `Json`; integer payloads
  suffice for every value the server itself constructs.
* `Uuid::new_v4()` is nondeterministic; each operation that mints one
  receives the minted string as an explicit `freshId` argument.
* `chrono::Utc::now()` (the `connected_at` timestamp) never influences any
  behaviour of the server and is omitted from `ConnectionInfo`.
* Rust methods that mutate `&mut self` become functions returning the new
  state; `handle_message` returns the new manager paired with the
  `Option<Vec<SignalingMessage>>` result.
* `u16` arithmetic is `Nat` with an explicit `% 65536` where the source
  can overflow (release-build wrapping semantics).
-/

namespace WS2Infer

/-- Model of `serde_json::Value`: JSON values as the server constructs and
stores them. Numbers are integers, which covers every numeric value the
server itself writes (connection counts). -/
inductive Json where
  | null : Json
  | bool : Bool → Json
  | num : Int → Json
  | str : String → Json
  | arr : List Json → Json
  | obj : List (String × Json) → Json

mutual

/-- Decidable equality for `Json` (the nested inductive prevents automatic
derivation). -/
def Json.decEq : (a b : Json) → Decidable (a = b)
  | .null, .null => isTrue rfl
  | .bool x, .bool y =>
    match inferInstanceAs (Decidable (x = y)) with
    | isTrue h => isTrue (by rw [h])
    | isFalse h => isFalse (fun e => by injection e with e1; exact h e1)
  | .num x, .num y =>
    match inferInstanceAs (Decidable (x = y)) with
    | isTrue h => isTrue (by rw [h])
    | isFalse h => isFalse (fun e => by injection e with e1; exact h e1)
  | .str x, .str y =>
    match inferInstanceAs (Decidable (x = y)) with
    | isTrue h => isTrue (by rw [h])
    | isFalse h => isFalse (fun e => by injection e with e1; exact h e1)
  | .arr xs, .arr ys =>
    match Json.decEqList xs ys with
    | isTrue h => isTrue (by rw [h])
    | isFalse h => isFalse (fun e => by injection e with e1; exact h e1)
  | .obj xs, .obj ys =>
    match Json.decEqObj xs ys with
    | isTrue h => isTrue (by rw [h])
    | isFalse h => isFalse (fun e => by injection e with e1; exact h e1)
  | .null, .bool _ => isFalse (fun h => by injection h)
  | .null, .num _ => isFalse (fun h => by injection h)
  | .null, .str _ => isFalse (fun h => by injection h)
  | .null, .arr _ => isFalse (fun h => by injection h)
  | .null, .obj _ => isFalse (fun h => by injection h)
  | .bool _, .null => isFalse (fun h => by injection h)
  | .bool _, .num _ => isFalse (fun h => by injection h)
  | .bool _, .str _ => isFalse (fun h => by injection h)
  | .bool _, .arr _ => isFalse (fun h => by injection h)
  | .bool _, .obj _ => isFalse (fun h => by injection h)
  | .num _, .null => isFalse (fun h => by injection h)
  | .num _, .bool _ => isFalse (fun h => by injection h)
  | .num _, .str _ => isFalse (fun h => by injection h)
  | .num _, .arr _ => isFalse (fun h => by injection h)
  | .num _, .obj _ => isFalse (fun h => by injection h)
  | .str _, .null => isFalse (fun h => by injection h)
  | .str _, .bool _ => isFalse (fun h => by injection h)
  | .str _, .num _ => isFalse (fun h => by injection h)
  | .str _, .arr _ => isFalse (fun h => by injection h)
  | .str _, .obj _ => isFalse (fun h => by injection h)
  | .arr _, .null => isFalse (fun h => by injection h)
  | .arr _, .bool _ => isFalse (fun h => by injection h)
  | .arr _, .num _ => isFalse (fun h => by injection h)
  | .arr _, .str _ => isFalse (fun h => by injection h)
  | .arr _, .obj _ => isFalse (fun h => by injection h)
  | .obj _, .null => isFalse (fun h => by injection h)
  | .obj _, .bool _ => isFalse (fun h => by injection h)
  | .obj _, .num _ => isFalse (fun h => by injection h)
  | .obj _, .str _ => isFalse (fun h => by injection h)
  | .obj _, .arr _ => isFalse (fun h => by injection h)

/-- Decidable equality for lists of `Json`. -/
def Json.decEqList : (xs ys : List Json) → Decidable (xs = ys)
  | [], [] => isTrue rfl
  | [], _ :: _ => isFalse (fun h => by injection h)
  | _ :: _, [] => isFalse (fun h => by injection h)
  | x :: xs, y :: ys =>
    match Json.decEq x y with
    | isFalse h1 => isFalse (fun e => by injection e with e1 e2; exact h1 e1)
    | isTrue h1 =>
      match Json.decEqList xs ys with
      | isTrue h2 => isTrue (by rw [h1, h2])
      | isFalse h2 => isFalse (fun e => by injection e with e1 e2; exact h2 e2)

/-- Decidable equality for `Json` object entry lists. -/
def Json.decEqObj : (xs ys : List (String × Json)) → Decidable (xs = ys)
  | [], [] => isTrue rfl
  | [], _ :: _ => isFalse (fun h => by injection h)
  | _ :: _, [] => isFalse (fun h => by injection h)
  | (k1, v1) :: xs, (k2, v2) :: ys =>
    match inferInstanceAs (Decidable (k1 = k2)) with
    | isFalse h1 => isFalse (fun e => by
        injection e with e1 e2
        injection e1 with e11 e12
        exact h1 e11)
    | isTrue h1 =>
      match Json.decEq v1 v2 with
      | isFalse hv => isFalse (fun e => by
          injection e with e1 e2
          injection e1 with e11 e12
          exact hv e12)
      | isTrue hv =>
        match Json.decEqObj xs ys with
        | isTrue h2 => isTrue (by rw [h1, hv, h2])
        | isFalse h2 => isFalse (fun e => by injection e with e1 e2; exact h2 e2)

end

instance : DecidableEq Json := Json.decEq

/-- Model of `SignalingMessageType` from `src/signaling.rs`. -/
inductive SignalingMessageType where
  | join
  | leave
  | offer
  | answer
  | iceCandidate
  | roomInfo
  | error
  | inferenceResult
  | inferenceUpdate
  | newPeer
deriving DecidableEq

/-- Model of `SignalingMessage` from `src/signaling.rs`. `data` is the
opaque `serde_json::Value` payload. -/
structure SignalingMessage where
  message_type : SignalingMessageType
  connection_id : Option String
  source_sender_id : Option String
  sender_id : Option String
  offer_id : Option String
  data : Option Json
  is_sender : Option Bool
deriving DecidableEq

/-- Model of `ConnectionInfo` from `src/room.rs`; the `connected_at`
wall-clock timestamp is omitted because no code path reads it. -/
structure ConnectionInfo where
  id : String
  is_sender : Bool
deriving DecidableEq

/-- Lookup in an association list, modelling `HashMap::get`. -/
def mapGet? {β : Type} (k : String) : List (String × β) → Option β
  | [] => none
  | (k2, v) :: rest => if k2 = k then some v else mapGet? k rest

/-- Insert into an association list, modelling `HashMap::insert`: an
existing binding for the key is replaced in place, otherwise the new
binding is appended. -/
def mapInsert {β : Type} (k : String) (v : β) : List (String × β) → List (String × β)
  | [] => [(k, v)]
  | (k2, v2) :: rest => if k2 = k then (k, v) :: rest else (k2, v2) :: mapInsert k v rest

/-- Remove from an association list, modelling `HashMap::remove`. -/
def mapRemove {β : Type} (k : String) : List (String × β) → List (String × β)
  | [] => []
  | (k2, v2) :: rest => if k2 = k then rest else (k2, v2) :: mapRemove k rest

/-- Model of `Room` from `src/room.rs`. -/
structure Room where
  id : String
  connections : List (String × ConnectionInfo)
  offers : List (String × SignalingMessage)
deriving DecidableEq

/-- `Room::new` from `src/room.rs`. -/
def Room.new (id : String) : Room :=
  { id := id, connections := [], offers := [] }

/-- `Room::add_connection` from `src/room.rs`: rejects a second sender,
otherwise inserts the `ConnectionInfo` and returns the (always empty)
list of removed connection ids. -/
def Room.add_connection (room : Room) (connection_id : String) (is_sender : Bool) :
    Except String (Room × List String) :=
  let removed_ids : List String := []
  if is_sender ∧ room.connections.any (fun c => c.2.is_sender) then
    .error "Sender already exists in this room"
  else
    let connection_info : ConnectionInfo := { id := connection_id, is_sender := is_sender }
    .ok ({ room with connections := mapInsert connection_id connection_info room.connections },
         removed_ids)

/-- `Room::remove_connection` from `src/room.rs`: drops the connection and
purges offers whose `sender_id` equals the departing connection. -/
def Room.remove_connection (room : Room) (connection_id : String) : Room :=
  { room with
    connections := mapRemove connection_id room.connections,
    offers := room.offers.filter (fun kv =>
      match kv.2.sender_id with
      | some sid => sid ≠ connection_id
      | none => true) }

/-- `Room::add_offer` from `src/room.rs`: stamps the offer with the
freshly minted uuid (`freshId` stands for `Uuid::new_v4().to_string()`)
and stores it; the result is always `ok`. -/
def Room.add_offer (room : Room) (freshId : String) (offer : SignalingMessage) :
    Except String Room :=
  let offer_with_id := { offer with offer_id := some freshId }
  .ok { room with offers := mapInsert freshId offer_with_id room.offers }

/-- `Room::get_offers_for_viewer` from `src/room.rs`: the cached offers. -/
def Room.get_offers_for_viewer (room : Room) : List SignalingMessage :=
  room.offers.map (fun kv => kv.2)

/-- `Room::get_connection_count` from `src/room.rs`. -/
def Room.get_connection_count (room : Room) : Nat :=
  room.connections.length

/-- Model of `RoomManager` from `src/room.rs`. -/
structure RoomManager where
  rooms : List (String × Room)
  inference_db : List (String × List (String × Json))
deriving DecidableEq

/-- `RoomManager::new` from `src/room.rs`. -/
def RoomManager.new : RoomManager :=
  { rooms := [], inference_db := [] }

/-- `RoomManager::create_room` from `src/room.rs`: unconditionally inserts
a fresh `Room` under `room_id`. -/
def RoomManager.create_room (m : RoomManager) (room_id : String) : RoomManager :=
  { m with rooms := mapInsert room_id (Room.new room_id) m.rooms }

/-- `RoomManager::handle_message` from `src/room.rs`. `freshId` stands for
the string `Uuid::new_v4()` would mint if this call stores an offer. The
Rust method mutates the manager and returns
`Option<Vec<SignalingMessage>>`; here the new manager state is returned
alongside that result (`none` paths leave the state untouched, as in the
source). The persistence calls in the `InferenceResult` branch are
fire-and-forget side effects (failures only logged) and have no effect on
manager state, so they do not appear. -/
def RoomManager.handle_message (m : RoomManager) (freshId : String) (room_id : String)
    (message : SignalingMessage) : RoomManager × Option (List SignalingMessage) :=
  match mapGet? room_id m.rooms with
  | none => (m, none)
  | some room =>
    match message.message_type with
    | .join =>
      let is_sender := message.is_sender.getD false
      match message.connection_id with
      | none => (m, none)
      | some connection_id =>
        match room.add_connection connection_id is_sender with
        | .error e =>
          (m, some [{ message_type := .error, connection_id := some connection_id,
                      source_sender_id := none, sender_id := none, offer_id := none,
                      data := some (.obj [("error", .str e)]), is_sender := none }])
        | .ok (room2, removed_ids) =>
          let connection_count := room2.get_connection_count
          let responses : List SignalingMessage :=
            [{ message_type := .roomInfo, connection_id := some connection_id,
               source_sender_id := none, sender_id := none, offer_id := none,
               data := some (.obj
                 [("room_id", .str room_id), ("mode", .str "1onN"),
                  ("connection_count", .num (connection_count : Int)),
                  ("peers", .arr ((room2.connections.filter
                      (fun p => p.1 ≠ connection_id)).map
                    (fun p => .obj [("id", .str p.1),
                                    ("is_sender", .bool p.2.is_sender)])))]),
               is_sender := none }]
          let responses := responses ++ removed_ids.flatMap (fun rid =>
            room2.connections.map (fun oc =>
              { message_type := .leave, connection_id := some oc.1,
                source_sender_id := none, sender_id := none, offer_id := none,
                data := some (.obj
                  [("connection_id", .str rid),
                   ("connection_count", .num (connection_count : Int))]),
                is_sender := none }))
          let responses := responses ++
            (room2.connections.filter (fun oc => oc.1 ≠ connection_id)).map (fun oc =>
              { message_type := .newPeer, connection_id := some oc.1,
                source_sender_id := none, sender_id := none, offer_id := none,
                data := some (.obj
                  [("connection_id", .str connection_id),
                   ("is_sender", .bool is_sender),
                   ("connection_count", .num (connection_count : Int))]),
                is_sender := none })
          let responses := if is_sender then responses else
            responses ++ room2.get_offers_for_viewer.map (fun offer =>
              { message_type := .offer, connection_id := some connection_id,
                source_sender_id := none, sender_id := offer.sender_id,
                offer_id := offer.offer_id, data := offer.data, is_sender := none })
          ({ m with rooms := mapInsert room_id room2 m.rooms }, some responses)
    | .offer =>
      if message.connection_id.isSome then (m, some [message])
      else
        match room.add_offer freshId message with
        | .error e =>
          (m, some [{ message_type := .error, connection_id := message.connection_id,
                      source_sender_id := none, sender_id := message.sender_id,
                      offer_id := message.offer_id,
                      data := some (.obj [("error", .str e)]), is_sender := none }])
        | .ok room2 =>
          let offers := room2.get_offers_for_viewer
          let responses := offers.flatMap (fun offer =>
            (room2.connections.filter (fun c => !c.2.is_sender)).map (fun c =>
              { message_type := .offer, connection_id := some c.1,
                source_sender_id := none, sender_id := offer.sender_id,
                offer_id := offer.offer_id, data := offer.data, is_sender := none }))
          ({ m with rooms := mapInsert room_id room2 m.rooms }, some responses)
    | .answer => (m, some [message])
    | .iceCandidate =>
      if message.connection_id.isSome then (m, some [message])
      else
        (m, some ((room.connections.filter (fun c => !c.2.is_sender)).map (fun c =>
          { message with connection_id := some c.1 })))
    | .inferenceResult =>
      match message.source_sender_id with
      | none => (m, none)
      | some source_id =>
        let room_entry := (mapGet? room_id m.inference_db).getD []
        let room_entry2 := match message.data with
          | some d => mapInsert source_id d room_entry
          | none => room_entry
        let m2 := { m with inference_db := mapInsert room_id room_entry2 m.inference_db }
        let responses := room.connections.map (fun c =>
          { message_type := .inferenceUpdate, connection_id := some c.1,
            source_sender_id := none, sender_id := none, offer_id := none,
            data := some (.obj
              [("source_sender_id", .str source_id),
               ("latest", match mapGet? source_id room_entry2 with
                          | some v => v
                          | none => .null)]),
            is_sender := none })
        (m2, some responses)
    | _ => (m, none)

/-- `RoomManager::remove_connection` from `src/room.rs`: evicts the
connection from the room and notifies every remaining connection with a
`leave` envelope. -/
def RoomManager.remove_connection (m : RoomManager) (room_id : String)
    (connection_id : String) : RoomManager × Option (List SignalingMessage) :=
  match mapGet? room_id m.rooms with
  | none => (m, none)
  | some room =>
    let room2 := room.remove_connection connection_id
    let connection_count := room2.get_connection_count
    let responses := room2.connections.map (fun oc =>
      { message_type := .leave, connection_id := some oc.1,
        source_sender_id := none, sender_id := none, offer_id := none,
        data := some (.obj
          [("connection_id", .str connection_id),
           ("connection_count", .num (connection_count : Int))]),
        is_sender := none })
    ({ m with rooms := mapInsert room_id room2 m.rooms }, some responses)

/-- Big-endian byte pair of a 16-bit value (`u16::to_be_bytes`). -/
def be16 (n : Nat) : List Nat := [n / 256 % 256, n % 256]

/-- `StunServer::create_binding_response` from `src/stun.rs`, for an IPv4
source address. Bytes are `Nat` values below 256; `src_ip` is the four
address octets and `src_port` the 16-bit source port. The body XORs the
port with `0x2112` and every address octet with the literal `0x21`, then
rewrites the header length field. -/
def create_binding_response (request : List Nat) (src_ip : List Nat) (src_port : Nat) :
    List Nat :=
  let response : List Nat := []
  let response := response ++ be16 0x0101
  let response := response ++ be16 0
  let response := response ++ (request.drop 4).take 16
  let response := response ++ be16 0x0020
  let response := response ++ be16 8
  let response := response ++ [0x00]
  let response := response ++ [0x01]
  let port := src_port ^^^ 0x2112
  let response := response ++ be16 port
  let response := response ++ src_ip.map (fun octet => octet ^^^ 0x21)
  let total_len := response.length - 20
  (response.set 2 (total_len / 256 % 256)).set 3 (total_len % 256)

/-- The four bytes of the STUN magic cookie `0x2112A442`. -/
def magicCookieBytes : List Nat := [0x21, 0x12, 0xA4, 0x42]

/-- Decoding of the XOR-MAPPED-ADDRESS attribute of a binding response, as
the claim (following RFC 5389) prescribes: the attribute value sits at
byte offset 24, the port is the big-endian 16-bit value at offsets 26-27
XORed with the cookie's top 16 bits `0x2112`, and address octet `i` (at
offset `28 + i`) is XORed with cookie byte `i`. Returns the decoded
(address octets, port). -/
def decode_xor_mapped_address (response : List Nat) : List Nat × Nat :=
  let xport := (response.getD 26 0) * 256 + response.getD 27 0
  let port := xport ^^^ 0x2112
  let xaddr := [response.getD 28 0, response.getD 29 0, response.getD 30 0, response.getD 31 0]
  let addr := (List.zip xaddr magicCookieBytes).map (fun p => p.1 ^^^ p.2)
  (addr, port)

/-- `TurnServer::get_next_relay_port` from `src/turn.rs`, as a function of
the `next_relay_port` counter (a `u16`): returns the minted port and the
new counter value. `self.next_relay_port += 1` is 16-bit arithmetic, so
the increment is taken modulo `2^16` (release-build wrapping; a debug
build panics at the same point); the source then resets the counter to
`49152` whenever it exceeds `65535`. -/
def get_next_relay_port (next_relay_port : Nat) : Nat × Nat :=
  let port := next_relay_port
  let next := (next_relay_port + 1) % 65536
  let next := if next > 65535 then 49152 else next
  (port, next)

/-- Wire names of `SignalingMessageType` variants under
`#[serde(rename_all = "snake_case")]` from `src/signaling.rs`. -/
def SignalingMessageType.toWire : SignalingMessageType → String
  | .join => "join"
  | .leave => "leave"
  | .offer => "offer"
  | .answer => "answer"
  | .iceCandidate => "ice_candidate"
  | .roomInfo => "room_info"
  | .error => "error"
  | .inferenceResult => "inference_result"
  | .inferenceUpdate => "inference_update"
  | .newPeer => "new_peer"

/-- serde's serialization of an `Option` field that carries no
`skip_serializing_if` attribute: `None` becomes JSON `null`. -/
def serOpt {α : Type} (f : α → Json) : Option α → Json
  | none => .null
  | some a => f a

/-- JSON encoding of `SignalingMessage` under `#[derive(Serialize)]` with
`#[serde(rename = "type")]` on `message_type` (`src/signaling.rs`): the
derived serializer emits every field in declaration order, and each
`Option` field — none of which carries a `skip_serializing_if`
attribute — serializes `None` as `null`. -/
def SignalingMessage.toJson (msg : SignalingMessage) : Json :=
  .obj [("type", .str msg.message_type.toWire),
        ("connection_id", serOpt Json.str msg.connection_id),
        ("source_sender_id", serOpt Json.str msg.source_sender_id),
        ("sender_id", serOpt Json.str msg.sender_id),
        ("offer_id", serOpt Json.str msg.offer_id),
        ("data", serOpt id msg.data),
        ("is_sender", serOpt Json.bool msg.is_sender)]

/-- Field lookup in an encoded JSON object. -/
def Json.objGet? (j : Json) (k : String) : Option Json :=
  match j with
  | .obj kvs => mapGet? k kvs
  | _ => none

/-- Number of connections in a room flagged as the sender. -/
def senderCount (l : List (String × ConnectionInfo)) : Nat :=
  (l.filter (fun c => c.2.is_sender)).length

/-- The sender-uniqueness invariant: every room held by the manager has at
most one connection with `is_sender = true`. -/
def managerInv (m : RoomManager) : Prop :=
  ∀ rid room, mapGet? rid m.rooms = some room → senderCount room.connections ≤ 1

/-- Manager states reachable from the empty manager by any sequence of
`create_room`, `handle_message` and `remove_connection` calls. -/
inductive Reachable : RoomManager → Prop where
  | base : Reachable RoomManager.new
  | create (m : RoomManager) (rid : String) :
      Reachable m → Reachable (m.create_room rid)
  | handle (m : RoomManager) (freshId rid : String) (msg : SignalingMessage) :
      Reachable m → Reachable (m.handle_message freshId rid msg).1
  | remove (m : RoomManager) (rid cid : String) :
      Reachable m → Reachable (m.remove_connection rid cid).1

/-- A `join` envelope, as `SignalingMessage::new_join` builds one (with the
role optional, mirroring the wire format). -/
def mkJoin (cid : String) (role : Option Bool) : SignalingMessage :=
  { message_type := .join, connection_id := some cid, source_sender_id := none,
    sender_id := none, offer_id := none, data := none, is_sender := role }

/-- A broadcast-mode `offer` envelope: no `connection_id` target. -/
def mkOffer (sid : String) (d : Json) : SignalingMessage :=
  { message_type := .offer, connection_id := none, source_sender_id := none,
    sender_id := some sid, offer_id := none, data := some d, is_sender := none }

/-- Manager with room `"r"` holding one sender connection `"S"`. -/
def mgrWithSender : RoomManager :=
  ((RoomManager.new.create_room "r").handle_message "u1" "r" (mkJoin "S" (some true))).1

/-- `mgrWithSender` after a broadcast offer from `"S"` was cached under
offer id `"o1"`. -/
def mgrSenderOffer : RoomManager :=
  (mgrWithSender.handle_message "o1" "r" (mkOffer "S" (.str "sdp1"))).1

/-- Manager with room `"r"` holding one viewer connection `"V1"`. -/
def mgrOneViewer : RoomManager :=
  ((RoomManager.new.create_room "r").handle_message "u1" "r" (mkJoin "V1" (some false))).1

/-- `mgrOneViewer` after a broadcast offer was cached under id `"o1"`. -/
def mgrViewerOffer : RoomManager :=
  (mgrOneViewer.handle_message "o1" "r" (mkOffer "S" (.str "sdp1"))).1

/-- Manager with room `"r"` holding two viewer connections and an empty
offer cache. -/
def mgrTwoViewers : RoomManager :=
  (mgrOneViewer.handle_message "u2" "r" (mkJoin "V2" (some false))).1

/-- A signaling message with every optional field unset. -/
def msgAllUnset : SignalingMessage :=
  { message_type := .join, connection_id := none, source_sender_id := none,
    sender_id := none, offer_id := none, data := none, is_sender := none }

/-- A well-formed 20-byte STUN binding request header: type `0x0001`,
length `0`, magic cookie, then a 12-byte transaction id. -/
def stunRequest : List Nat :=
  [0, 1, 0, 0, 0x21, 0x12, 0xA4, 0x42] ++ List.replicate 12 7

/-! Association-list lemmas shared by the claim proofs. -/

theorem mapGet?_insert_self {β : Type} (k : String) (v : β) (l : List (String × β)) :
    mapGet? k (mapInsert k v l) = some v := by
  induction l with
  | nil => simp [mapInsert, mapGet?]
  | cons hd tl ih =>
    obtain ⟨k2, v2⟩ := hd
    by_cases h : k2 = k
    · simp [mapInsert, h, mapGet?]
    · simp [mapInsert, h, mapGet?, ih]

theorem mapGet?_insert_ne {β : Type} (q k : String) (v : β) (l : List (String × β))
    (h : q ≠ k) : mapGet? q (mapInsert k v l) = mapGet? q l := by
  have hk : k ≠ q := fun e => h e.symm
  induction l with
  | nil => simp [mapInsert, mapGet?, hk]
  | cons hd tl ih =>
    obtain ⟨k2, v2⟩ := hd
    by_cases h2 : k2 = k
    · subst h2
      simp [mapInsert, mapGet?, hk]
    · simp only [mapInsert, if_neg h2, mapGet?]
      by_cases h3 : k2 = q <;> simp [h3, ih]

theorem mapInsert_of_get_none {β : Type} (k : String) (v : β) (l : List (String × β))
    (h : mapGet? k l = none) : mapInsert k v l = l ++ [(k, v)] := by
  induction l with
  | nil => simp [mapInsert]
  | cons hd tl ih =>
    obtain ⟨k2, v2⟩ := hd
    simp only [mapGet?] at h
    by_cases h2 : k2 = k
    · simp [h2] at h
    · simp only [if_neg h2] at h
      simp [mapInsert, h2, ih h]

theorem filter_keys_ne_of_get_none {β : Type} (k : String) (l : List (String × β))
    (h : mapGet? k l = none) : l.filter (fun p => p.1 ≠ k) = l := by
  induction l with
  | nil => simp
  | cons hd tl ih =>
    obtain ⟨k2, v2⟩ := hd
    simp only [mapGet?] at h
    by_cases h2 : k2 = k
    · simp [h2] at h
    · simp only [if_neg h2] at h
      have hd2 : (fun (p : String × β) => decide (p.1 ≠ k)) (k2, v2) = true := by
        simp [h2]
      simp only [List.filter_cons, hd2, if_pos, ih h]

theorem senderCount_cons (k : String) (v : ConnectionInfo)
    (tl : List (String × ConnectionInfo)) :
    senderCount ((k, v) :: tl) = (if v.is_sender then 1 else 0) + senderCount tl := by
  cases hv : v.is_sender <;> simp [senderCount, List.filter_cons, hv, Nat.add_comm]

theorem senderCount_of_any_false (l : List (String × ConnectionInfo))
    (h : l.any (fun c => c.2.is_sender) = false) : senderCount l = 0 := by
  induction l with
  | nil => simp [senderCount]
  | cons hd tl ih =>
    obtain ⟨k2, v2⟩ := hd
    simp only [List.any_cons, Bool.or_eq_false_iff] at h
    rw [senderCount_cons, h.1, ih h.2]
    simp

theorem senderCount_insert_le (k : String) (ci : ConnectionInfo)
    (l : List (String × ConnectionInfo)) :
    senderCount (mapInsert k ci l) ≤ senderCount l + (if ci.is_sender then 1 else 0) := by
  induction l with
  | nil =>
    simp only [mapInsert, senderCount_cons]
    cases hv : ci.is_sender <;> simp [senderCount, hv]
  | cons hd tl ih =>
    obtain ⟨k2, v2⟩ := hd
    by_cases h2 : k2 = k
    · simp only [mapInsert, if_pos h2, senderCount_cons]
      cases hv : ci.is_sender <;> cases hv2 : v2.is_sender <;> simp [hv, hv2] <;> omega
    · simp only [mapInsert, if_neg h2, senderCount_cons]
      omega

theorem senderCount_insert_nonsender (k : String) (ci : ConnectionInfo)
    (l : List (String × ConnectionInfo)) (h : ci.is_sender = false) :
    senderCount (mapInsert k ci l) ≤ senderCount l := by
  have := senderCount_insert_le k ci l
  rw [h] at this
  simpa using this

theorem senderCount_insert_of_any_false (k : String) (ci : ConnectionInfo)
    (l : List (String × ConnectionInfo)) (h : l.any (fun c => c.2.is_sender) = false) :
    senderCount (mapInsert k ci l) ≤ 1 := by
  have h1 := senderCount_insert_le k ci l
  rw [senderCount_of_any_false l h] at h1
  cases hv : ci.is_sender <;> rw [hv] at h1 <;> simp at h1 <;> omega

theorem senderCount_remove_le (k : String) (l : List (String × ConnectionInfo)) :
    senderCount (mapRemove k l) ≤ senderCount l := by
  induction l with
  | nil => simp [mapRemove]
  | cons hd tl ih =>
    obtain ⟨k2, v2⟩ := hd
    by_cases h2 : k2 = k
    · simp only [mapRemove, if_pos h2, senderCount_cons]
      omega
    · simp only [mapRemove, if_neg h2, senderCount_cons]
      omega

/-! Preservation of the sender-uniqueness invariant by each manager
operation. -/

theorem managerInv_insertRoom {m : RoomManager} {rid : String} {room : Room}
    (h : managerInv m) (hr : senderCount room.connections ≤ 1) :
    managerInv { m with rooms := mapInsert rid room m.rooms } := by
  intro q rm hq
  by_cases hqr : q = rid
  · subst hqr
    simp only [mapGet?_insert_self] at hq
    cases hq
    exact hr
  · simp only [mapGet?_insert_ne q rid room m.rooms hqr] at hq
    exact h q rm hq

theorem add_connection_senderCount {room room2 : Room} {cid : String} {s : Bool}
    {ids : List String} (h2 : room.add_connection cid s = .ok (room2, ids))
    (hr : senderCount room.connections ≤ 1) : senderCount room2.connections ≤ 1 := by
  unfold Room.add_connection at h2
  split_ifs at h2 with hcond
  simp only [Except.ok.injEq, Prod.mk.injEq] at h2
  obtain ⟨h3, h4⟩ := h2
  subst h3
  by_cases hs : s = true
  · have hany : room.connections.any (fun c => c.2.is_sender) = false := by
      cases hany2 : room.connections.any (fun c => c.2.is_sender)
      · rfl
      · exact absurd ⟨hs, hany2⟩ hcond
    exact senderCount_insert_of_any_false _ _ _ hany
  · have hs2 : s = false := by
      cases s
      · rfl
      · exact absurd rfl hs
    exact Nat.le_trans (senderCount_insert_nonsender _ _ _ hs2) hr

theorem handle_message_inv {m : RoomManager} (f rid : String) (msg : SignalingMessage)
    (h : managerInv m) : managerInv (m.handle_message f rid msg).1 := by
  unfold RoomManager.handle_message
  cases hroom : mapGet? rid m.rooms with
  | none => exact h
  | some room =>
    have hr : senderCount room.connections ≤ 1 := h rid room hroom
    cases hmt : msg.message_type
    case join =>
      cases hcid : msg.connection_id with
      | none => exact h
      | some cid =>
        cases hac : room.add_connection cid (msg.is_sender.getD false) with
        | error e =>
          simp only [hac]
          exact h
        | ok p =>
          obtain ⟨room2, ids⟩ := p
          simp only [hac]
          exact managerInv_insertRoom h (add_connection_senderCount hac hr)
    case offer =>
      cases hc : msg.connection_id.isSome with
      | true => exact h
      | false =>
        have hr2 : senderCount (Room.mk room.id room.connections
            (mapInsert f { msg with offer_id := some f } room.offers)).connections ≤ 1 := hr
        exact managerInv_insertRoom h hr2
    case answer => exact h
    case iceCandidate =>
      cases hc : msg.connection_id.isSome with
      | true => exact h
      | false => exact h
    case inferenceResult =>
      cases hsid : msg.source_sender_id with
      | none => exact h
      | some sid =>
        intro q rm hq
        exact h q rm hq
    case leave => exact h
    case roomInfo => exact h
    case error => exact h
    case inferenceUpdate => exact h
    case newPeer => exact h

theorem remove_connection_inv {m : RoomManager} (rid cid : String)
    (h : managerInv m) : managerInv (m.remove_connection rid cid).1 := by
  unfold RoomManager.remove_connection
  cases hroom : mapGet? rid m.rooms with
  | none => exact h
  | some room =>
    have hr : senderCount room.connections ≤ 1 := h rid room hroom
    have hr2 : senderCount (room.remove_connection cid).connections ≤ 1 :=
      Nat.le_trans (senderCount_remove_le cid room.connections) hr
    exact managerInv_insertRoom h hr2

/-- Claim C1: for every `RoomManager` state reachable from the empty
manager by any sequence of `create_room`, `handle_message` and
`remove_connection` calls, every room has at most one connection whose
`ConnectionInfo` has `is_sender = true`. -/
theorem sender_uniqueness (m : RoomManager) (h : Reachable m) : managerInv m := by
  induction h with
  | base =>
    intro rid room hr
    simp [RoomManager.new, mapGet?] at hr
  | create m2 rid2 _ ih =>
    exact managerInv_insertRoom ih (by simp [Room.new, senderCount])
  | handle m2 f rid2 msg _ ih => exact handle_message_inv f rid2 msg ih
  | remove m2 rid2 cid _ ih => exact remove_connection_inv rid2 cid ih

/-- Witness for C1: the invariant instantiated at the concrete reachable
state that holds one sender connection in room `"r"`. -/
theorem sender_uniqueness_witness :
    senderCount (Room.mk "r" [("S", ConnectionInfo.mk "S" true)] []).connections ≤ 1 :=
  sender_uniqueness mgrWithSender
    (Reachable.handle _ "u1" "r" (mkJoin "S" (some true))
      (Reachable.create _ "r" Reachable.base))
    "r" (Room.mk "r" [("S", ConnectionInfo.mk "S" true)] []) rfl

/-- Claim C2: a `join` with `is_sender = true` for an existing room that
already holds a sender yields exactly one `error` envelope addressed to
the joiner with `data.error = "Sender already exists in this room"`, and
the manager state is unchanged. -/
theorem duplicate_sender_rejected (m : RoomManager) (f rid cid : String)
    (msg : SignalingMessage) (room : Room)
    (hroom : mapGet? rid m.rooms = some room)
    (hsender : room.connections.any (fun c => c.2.is_sender) = true)
    (htype : msg.message_type = .join)
    (hjs : msg.is_sender = some true)
    (hcid : msg.connection_id = some cid) :
    m.handle_message f rid msg =
      (m, some [{ message_type := .error, connection_id := some cid,
                  source_sender_id := none, sender_id := none, offer_id := none,
                  data := some (.obj [("error", .str "Sender already exists in this room")]),
                  is_sender := none }]) := by
  have hac : room.add_connection cid true = .error "Sender already exists in this room" := by
    unfold Room.add_connection
    rw [if_pos ⟨rfl, hsender⟩]
  unfold RoomManager.handle_message
  simp only [hroom, htype, hcid, hjs, Option.getD_some, hac]

/-- Witness for C2: the rejection at a concrete room that already holds
sender `"S"`. -/
theorem duplicate_sender_rejected_witness :
    mgrWithSender.handle_message "u2" "r" (mkJoin "S2" (some true)) =
      (mgrWithSender, some [
        { message_type := .error, connection_id := some "S2",
          source_sender_id := none, sender_id := none, offer_id := none,
          data := some (.obj [("error", .str "Sender already exists in this room")]),
          is_sender := none }]) :=
  duplicate_sender_rejected mgrWithSender "u2" "r" "S2" (mkJoin "S2" (some true))
    (Room.mk "r" [("S", ConnectionInfo.mk "S" true)] []) rfl rfl rfl rfl rfl

/-- Counterexample to C3: calling `create_room` on a manager whose room
`"r"` already holds a connection is not a no-op — the room is replaced by
a fresh empty one. -/
theorem create_room_not_noop :
    mgrWithSender.create_room "r" ≠ mgrWithSender
    ∧ mapGet? "r" (mgrWithSender.create_room "r").rooms = some (Room.mk "r" [] [])
    ∧ mapGet? "r" mgrWithSender.rooms =
        some (Room.mk "r" [("S", ConnectionInfo.mk "S" true)] []) := by
  refine ⟨?_, rfl, rfl⟩
  decide

theorem mapInsert_insert_self {β : Type} (k : String) (v w : β) (l : List (String × β)) :
    mapInsert k v (mapInsert k w l) = mapInsert k v l := by
  induction l with
  | nil => simp [mapInsert]
  | cons hd tl ih =>
    obtain ⟨k2, v2⟩ := hd
    by_cases h2 : k2 = k
    · simp [mapInsert, h2]
    · simp [mapInsert, h2, ih]

/-- Claim C3 (amended): `create_room(room_id)` always installs a fresh
empty room under `room_id`, replacing any existing room (its connections
and offer cache are discarded); other rooms and the inference store are
unchanged, and repeating the call gives the same state. -/
theorem create_room_overwrites (m : RoomManager) (room_id : String) :
    mapGet? room_id (m.create_room room_id).rooms = some (Room.new room_id)
    ∧ (∀ q, q ≠ room_id → mapGet? q (m.create_room room_id).rooms = mapGet? q m.rooms)
    ∧ (m.create_room room_id).inference_db = m.inference_db
    ∧ (m.create_room room_id).create_room room_id = m.create_room room_id := by
  refine ⟨mapGet?_insert_self _ _ _,
          fun q hq => mapGet?_insert_ne q room_id _ _ hq, rfl, ?_⟩
  unfold RoomManager.create_room
  simp [mapInsert_insert_self]

/-- Witness for C3 (amended), at the concrete manager whose room `"r"`
holds one sender connection. -/
theorem create_room_overwrites_witness :
    mapGet? "r" (mgrWithSender.create_room "r").rooms = some (Room.new "r")
    ∧ mapGet? "q" (mgrWithSender.create_room "r").rooms = mapGet? "q" mgrWithSender.rooms
    ∧ (mgrWithSender.create_room "r").inference_db = mgrWithSender.inference_db
    ∧ (mgrWithSender.create_room "r").create_room "r" = mgrWithSender.create_room "r" :=
  ⟨(create_room_overwrites mgrWithSender "r").1,
   (create_room_overwrites mgrWithSender "r").2.1 "q" (by decide),
   (create_room_overwrites mgrWithSender "r").2.2.1,
   (create_room_overwrites mgrWithSender "r").2.2.2⟩

/-- Claim C6 (evaluation at the failing input): XOR-decoding the binding
response with the true magic-cookie bytes does not recover the source
address `192.168.1.1` — the code XORs every octet with `0x21` instead of
the corresponding cookie byte, so octets 1-3 come back wrong (the port,
XORed with `0x2112`, does round-trip). -/
theorem stun_xor_decode_mismatch :
    decode_xor_mapped_address (create_binding_response stunRequest [192, 168, 1, 1] 5000)
      = ([192, 155, 132, 98], 5000)
    ∧ ([192, 155, 132, 98] : List Nat) ≠ [192, 168, 1, 1] := by
  refine ⟨rfl, ?_⟩
  decide

/-- Claim C7 (evaluation at the failing state): in the counter state `0`
reached immediately after port `65535` was returned, the next call yields
port `0` — outside `[49152, 65535]` and not the `49152` the claim
requires — because the `u16` increment wraps to `0` and the `> 65535`
reset branch can never fire. -/
theorem relay_port_wrap_broken :
    get_next_relay_port 65535 = (65535, 0)
    ∧ get_next_relay_port 0 = (0, 1)
    ∧ (get_next_relay_port 0).1 ≠ 49152
    ∧ ¬ (49152 ≤ (get_next_relay_port 0).1 ∧ (get_next_relay_port 0).1 ≤ 65535) := by
  refine ⟨rfl, rfl, ?_, ?_⟩ <;> decide

/-- Counterexample to C8: encoding a message whose optional fields are all
unset produces an object in which each optional key is still present (its
value is `null`), not absent. -/
theorem unset_fields_not_absent :
    msgAllUnset.toJson.objGet? "connection_id" ≠ none
    ∧ msgAllUnset.toJson.objGet? "source_sender_id" ≠ none
    ∧ msgAllUnset.toJson.objGet? "sender_id" ≠ none
    ∧ msgAllUnset.toJson.objGet? "offer_id" ≠ none
    ∧ msgAllUnset.toJson.objGet? "data" ≠ none
    ∧ msgAllUnset.toJson.objGet? "is_sender" ≠ none := by
  decide

/-- Claim C8 (amended): for every `SignalingMessage`, an unset optional
field is encoded as present with value `null` (the derive carries no
`skip_serializing_if`), not as absent. -/
theorem unset_fields_null (msg : SignalingMessage) :
    (msg.connection_id = none → msg.toJson.objGet? "connection_id" = some Json.null)
    ∧ (msg.source_sender_id = none → msg.toJson.objGet? "source_sender_id" = some Json.null)
    ∧ (msg.sender_id = none → msg.toJson.objGet? "sender_id" = some Json.null)
    ∧ (msg.offer_id = none → msg.toJson.objGet? "offer_id" = some Json.null)
    ∧ (msg.data = none → msg.toJson.objGet? "data" = some Json.null)
    ∧ (msg.is_sender = none → msg.toJson.objGet? "is_sender" = some Json.null) := by
  refine ⟨fun h => ?_, fun h => ?_, fun h => ?_, fun h => ?_, fun h => ?_, fun h => ?_⟩ <;>
    simp [SignalingMessage.toJson, Json.objGet?, mapGet?, serOpt, h]

/-- Witness for C8 (amended): all six lookups at the all-unset message. -/
theorem unset_fields_null_witness :
    msgAllUnset.toJson.objGet? "connection_id" = some Json.null
    ∧ msgAllUnset.toJson.objGet? "source_sender_id" = some Json.null
    ∧ msgAllUnset.toJson.objGet? "sender_id" = some Json.null
    ∧ msgAllUnset.toJson.objGet? "offer_id" = some Json.null
    ∧ msgAllUnset.toJson.objGet? "data" = some Json.null
    ∧ msgAllUnset.toJson.objGet? "is_sender" = some Json.null :=
  ⟨(unset_fields_null msgAllUnset).1 rfl,
   (unset_fields_null msgAllUnset).2.1 rfl,
   (unset_fields_null msgAllUnset).2.2.1 rfl,
   (unset_fields_null msgAllUnset).2.2.2.1 rfl,
   (unset_fields_null msgAllUnset).2.2.2.2.1 rfl,
   (unset_fields_null msgAllUnset).2.2.2.2.2 rfl⟩

/-- Claim C10: `Room::add_offer` succeeds on every input, so
`handle_message` never returns an `error` envelope for an `offer`
message — the error branch wrapping an `add_offer` failure is
unreachable. -/
theorem offer_no_error (m : RoomManager) (f rid : String) (msg : SignalingMessage) :
    (∀ (room : Room) (fid : String) (off : SignalingMessage),
        ∃ room2, room.add_offer fid off = .ok room2)
    ∧ (msg.message_type = .offer →
        ∀ env ∈ (m.handle_message f rid msg).2.getD [], env.message_type ≠ .error) := by
  constructor
  · intro room fid off
    exact ⟨_, rfl⟩
  · intro htype env henv
    unfold RoomManager.handle_message at henv
    cases hroom : mapGet? rid m.rooms with
    | none => simp [hroom] at henv
    | some room =>
      simp only [hroom, htype] at henv
      cases hc : msg.connection_id.isSome with
      | true =>
        simp only [hc, if_pos] at henv
        simp only [Option.getD_some, List.mem_singleton] at henv
        subst henv
        simp [htype]
      | false =>
        simp only [hc, Bool.false_eq_true, if_false, Room.add_offer, Option.getD_some] at henv
        simp only [List.mem_flatMap, List.mem_map] at henv
        obtain ⟨off, hoff, c, hcmem, henv2⟩ := henv
        subst henv2
        simp

/-- Witness for C10: the single envelope produced by a broadcast offer in
the one-viewer room is an `offer`, not an `error`. -/
theorem offer_no_error_witness :
    ({ message_type := .offer, connection_id := some "V1", source_sender_id := none,
       sender_id := some "S", offer_id := some "o1", data := some (.str "sdp1"),
       is_sender := none } : SignalingMessage).message_type ≠ .error :=
  (offer_no_error mgrOneViewer "o1" "r" (mkOffer "S" (.str "sdp1"))).2 rfl
    { message_type := .offer, connection_id := some "V1", source_sender_id := none,
      sender_id := some "S", offer_id := some "o1", data := some (.str "sdp1"),
      is_sender := none } (by decide)

theorem length_flatMap_const_map {α β γ : Type} (l : List α) (vs : List β) (g : α → β → γ) :
    (l.flatMap (fun o => vs.map (g o))).length = l.length * vs.length := by
  induction l with
  | nil => simp
  | cons hd tl ih =>
    simp [List.flatMap_cons, ih, Nat.succ_mul, Nat.add_comm]

/-- Counterexample to C4: in a room with exactly one viewer whose offer
cache already holds one offer, a broadcast offer produces two envelopes —
every cached offer is re-emitted to every viewer — not the single
one-copy-per-viewer envelope the claim requires. -/
theorem broadcast_offer_not_one_per_viewer :
    (((mapGet? "r" mgrViewerOffer.rooms).getD (Room.new "r")).connections.filter
        (fun c => !c.2.is_sender)).length = 1
    ∧ ((mgrViewerOffer.handle_message "o2" "r" (mkOffer "S" (.str "sdp2"))).2.getD
        []).length = 2 := by
  decide

/-- Claim C4 (amended): an `offer` without `connection_id` in an existing
room is stored in the offer cache under the freshly minted `offer_id`,
and the manager emits one copy of every cached offer — the new one
included — to each current viewer; with two viewers and a previously
empty cache this is exactly two envelopes, each carrying the new
`offer_id`. -/
theorem broadcast_offer_fanout (m : RoomManager) (f rid : String)
    (msg : SignalingMessage) (room : Room)
    (hroom : mapGet? rid m.rooms = some room)
    (htype : msg.message_type = .offer)
    (hcid : msg.connection_id = none)
    (hfresh : mapGet? f room.offers = none) :
    mapGet? rid ((m.handle_message f rid msg).1).rooms =
      some { room with offers := room.offers ++ [(f, { msg with offer_id := some f })] }
    ∧ (m.handle_message f rid msg).2 =
        some ((room.offers.map (fun (kv : String × SignalingMessage) => kv.2)
            ++ [{ msg with offer_id := some f }]).flatMap (fun offer =>
          (room.connections.filter (fun (c : String × ConnectionInfo) => !c.2.is_sender)).map
            (fun (c : String × ConnectionInfo) =>
              { message_type := .offer, connection_id := some c.1, source_sender_id := none,
                sender_id := offer.sender_id, offer_id := offer.offer_id, data := offer.data,
                is_sender := none })))
    ∧ ((m.handle_message f rid msg).2.getD []).length =
        (room.offers.length + 1) *
          (room.connections.filter (fun (c : String × ConnectionInfo) => !c.2.is_sender)).length := by
  have hins : mapInsert f { msg with offer_id := some f } room.offers =
      room.offers ++ [(f, { msg with offer_id := some f })] :=
    mapInsert_of_get_none f _ room.offers hfresh
  rw [htype, hcid] at hins
  have hfst : (m.handle_message f rid msg).1 = { m with rooms := mapInsert rid { room with offers := room.offers ++ [(f, { msg with offer_id := some f })] } m.rooms } := by
    unfold RoomManager.handle_message
    simp only [hroom, htype, hcid, Option.isSome_none, Bool.false_eq_true, if_false,
               Room.add_offer, hins]
  have hsnd : (m.handle_message f rid msg).2 = some ((room.offers.map (fun (kv : String × SignalingMessage) => kv.2) ++ [{ msg with offer_id := some f }]).flatMap (fun offer => (room.connections.filter (fun (c : String × ConnectionInfo) => !c.2.is_sender)).map (fun (c : String × ConnectionInfo) => { message_type := .offer, connection_id := some c.1, source_sender_id := none, sender_id := offer.sender_id, offer_id := offer.offer_id, data := offer.data, is_sender := none }))) := by
    unfold RoomManager.handle_message
    simp only [hroom, htype, hcid, Option.isSome_none, Bool.false_eq_true, if_false,
               Room.add_offer, hins, Room.get_offers_for_viewer, List.map_append,
               List.map_cons, List.map_nil]
  refine ⟨?_, ?_, ?_⟩
  · rw [hfst]
    exact mapGet?_insert_self _ _ _
  · exact hsnd
  · rw [hsnd]
    simp only [Option.getD_some]
    rw [length_flatMap_const_map]
    simp [Nat.add_comm]

/-- Witness for C4 (amended): two viewers, empty cache — two envelopes,
each carrying the minted offer id `"o9"`. -/
theorem broadcast_offer_fanout_witness :
    mapGet? "r" ((mgrTwoViewers.handle_message "o9" "r" (mkOffer "S" (.str "sdp"))).1).rooms =
      some (Room.mk "r" [("V1", ConnectionInfo.mk "V1" false), ("V2", ConnectionInfo.mk "V2" false)]
        [("o9", { mkOffer "S" (.str "sdp") with offer_id := some "o9" })])
    ∧ (mgrTwoViewers.handle_message "o9" "r" (mkOffer "S" (.str "sdp"))).2 =
        some [
          { message_type := .offer, connection_id := some "V1", source_sender_id := none,
            sender_id := some "S", offer_id := some "o9", data := some (.str "sdp"),
            is_sender := none },
          { message_type := .offer, connection_id := some "V2", source_sender_id := none,
            sender_id := some "S", offer_id := some "o9", data := some (.str "sdp"),
            is_sender := none }]
    ∧ ((mgrTwoViewers.handle_message "o9" "r" (mkOffer "S" (.str "sdp"))).2.getD []).length = 2 := by
  have h := broadcast_offer_fanout mgrTwoViewers "o9" "r" (mkOffer "S" (.str "sdp"))
    (Room.mk "r" [("V1", ConnectionInfo.mk "V1" false), ("V2", ConnectionInfo.mk "V2" false)] [])
    rfl rfl rfl rfl
  exact ⟨h.1, h.2.1, h.2.2⟩

/-- Claim C5: a valid join (fresh `connection_id`, no sender conflict) to
an existing room with `N` prior connections produces exactly `1 + N`
envelopes — a `room_info` to the joiner followed by one `new_peer` to
each pre-existing connection — plus, when the joiner is a viewer, one
`offer` per cached offer addressed to the joiner preserving that offer's
`sender_id`, `offer_id` and `data`. -/
theorem join_fanout (m : RoomManager) (f rid cid : String) (msg : SignalingMessage)
    (room : Room)
    (hroom : mapGet? rid m.rooms = some room)
    (htype : msg.message_type = .join)
    (hcid : msg.connection_id = some cid)
    (hfresh : mapGet? cid room.connections = none)
    (hns : msg.is_sender.getD false = true →
        room.connections.any (fun c => c.2.is_sender) = false) :
    (m.handle_message f rid msg).2 = some (
      { message_type := .roomInfo, connection_id := some cid, source_sender_id := none,
        sender_id := none, offer_id := none,
        data := some (.obj [("room_id", .str rid), ("mode", .str "1onN"),
          ("connection_count", .num ((room.connections.length + 1 : Nat) : Int)),
          ("peers", .arr (room.connections.map (fun (p : String × ConnectionInfo) =>
            .obj [("id", .str p.1), ("is_sender", .bool p.2.is_sender)])))]),
        is_sender := none }
      :: (room.connections.map (fun (oc : String × ConnectionInfo) =>
          { message_type := .newPeer, connection_id := some oc.1, source_sender_id := none,
            sender_id := none, offer_id := none,
            data := some (.obj [("connection_id", .str cid),
              ("is_sender", .bool (msg.is_sender.getD false)),
              ("connection_count", .num ((room.connections.length + 1 : Nat) : Int))]),
            is_sender := none })
        ++ (if msg.is_sender.getD false then [] else
            room.offers.map (fun (kv : String × SignalingMessage) =>
              { message_type := .offer, connection_id := some cid, source_sender_id := none,
                sender_id := kv.2.sender_id, offer_id := kv.2.offer_id, data := kv.2.data,
                is_sender := none }))))
    ∧ ((m.handle_message f rid msg).2.getD []).length =
        1 + room.connections.length +
          (if msg.is_sender.getD false then 0 else room.offers.length) := by
  have hguard : ¬(msg.is_sender.getD false = true ∧
      room.connections.any (fun c => c.2.is_sender) = true) := by
    rintro ⟨h1, h2⟩
    rw [hns h1] at h2
    cases h2
  have hac : room.add_connection cid (msg.is_sender.getD false) = .ok ({ room with connections := mapInsert cid (ConnectionInfo.mk cid (msg.is_sender.getD false)) room.connections }, []) := by
    unfold Room.add_connection
    rw [if_neg hguard]
  have hconn : mapInsert cid (ConnectionInfo.mk cid (msg.is_sender.getD false)) room.connections =
      room.connections ++ [(cid, ConnectionInfo.mk cid (msg.is_sender.getD false))] :=
    mapInsert_of_get_none cid _ room.connections hfresh
  have hkeep : room.connections.filter (fun p => p.1 ≠ cid) = room.connections :=
    filter_keys_ne_of_get_none cid room.connections hfresh
  have hdrop : List.filter (fun p => p.1 ≠ cid)
      [(cid, ConnectionInfo.mk cid (msg.is_sender.getD false))] = [] := by
    simp
  have hsnd : (m.handle_message f rid msg).2 = some (
      { message_type := .roomInfo, connection_id := some cid, source_sender_id := none,
        sender_id := none, offer_id := none,
        data := some (.obj [("room_id", .str rid), ("mode", .str "1onN"),
          ("connection_count", .num ((room.connections.length + 1 : Nat) : Int)),
          ("peers", .arr (room.connections.map (fun (p : String × ConnectionInfo) =>
            .obj [("id", .str p.1), ("is_sender", .bool p.2.is_sender)])))]),
        is_sender := none }
      :: (room.connections.map (fun (oc : String × ConnectionInfo) =>
          { message_type := .newPeer, connection_id := some oc.1, source_sender_id := none,
            sender_id := none, offer_id := none,
            data := some (.obj [("connection_id", .str cid),
              ("is_sender", .bool (msg.is_sender.getD false)),
              ("connection_count", .num ((room.connections.length + 1 : Nat) : Int))]),
            is_sender := none })
        ++ (if msg.is_sender.getD false then [] else
            room.offers.map (fun (kv : String × SignalingMessage) =>
              { message_type := .offer, connection_id := some cid, source_sender_id := none,
                sender_id := kv.2.sender_id, offer_id := kv.2.offer_id, data := kv.2.data,
                is_sender := none })))) := by
    unfold RoomManager.handle_message
    cases hs : msg.is_sender.getD false with
    | false =>
      rw [hs] at hac hconn hdrop
      simp only [hroom, htype, hcid, hac, hs, Room.get_connection_count,
                 Room.get_offers_for_viewer, hconn, hkeep, List.filter_append, hdrop,
                 List.append_nil, List.length_append, List.length_cons, List.length_nil,
                 List.flatMap_nil, List.map_map, List.map_append, List.map_cons,
                 List.map_nil, Bool.false_eq_true, if_false, List.nil_append,
                 List.cons_append, Function.comp_def, Nat.zero_add]
    | true =>
      rw [hs] at hac hconn hdrop
      simp only [hroom, htype, hcid, hac, hs, Room.get_connection_count,
                 Room.get_offers_for_viewer, hconn, hkeep, List.filter_append, hdrop,
                 List.append_nil, List.length_append, List.length_cons, List.length_nil,
                 List.flatMap_nil, List.map_map, List.map_append, List.map_cons,
                 List.map_nil, eq_self_iff_true, if_true, List.nil_append,
                 List.cons_append, Function.comp_def, Nat.zero_add]
  refine ⟨hsnd, ?_⟩
  rw [hsnd]
  cases hs : msg.is_sender.getD false <;>
    simp [hs, List.length_append, Nat.add_comm, Nat.add_assoc, Nat.add_left_comm]

/-- Witness for C5: viewer `"V"` joining the room that holds sender `"S"`
and one cached offer receives `room_info`, `"S"` receives `new_peer`, and
the cached offer is replayed to `"V"` — three envelopes in total. -/
theorem join_fanout_witness :
    (mgrSenderOffer.handle_message "u2" "r" (mkJoin "V" (some false))).2 = some (
      { message_type := .roomInfo, connection_id := some "V", source_sender_id := none,
        sender_id := none, offer_id := none,
        data := some (.obj [("room_id", .str "r"), ("mode", .str "1onN"),
          ("connection_count", .num 2),
          ("peers", .arr [.obj [("id", .str "S"), ("is_sender", .bool true)]])]),
        is_sender := none }
      :: ([{ message_type := .newPeer, connection_id := some "S", source_sender_id := none,
             sender_id := none, offer_id := none,
             data := some (.obj [("connection_id", .str "V"), ("is_sender", .bool false),
               ("connection_count", .num 2)]),
             is_sender := none }]
        ++ [{ message_type := .offer, connection_id := some "V", source_sender_id := none,
              sender_id := some "S", offer_id := some "o1", data := some (.str "sdp1"),
              is_sender := none }]))
    ∧ ((mgrSenderOffer.handle_message "u2" "r" (mkJoin "V" (some false))).2.getD []).length = 3 := by
  have h := join_fanout mgrSenderOffer "u2" "r" "V" (mkJoin "V" (some false))
    (Room.mk "r" [("S", ConnectionInfo.mk "S" true)]
      [("o1", { mkOffer "S" (.str "sdp1") with offer_id := some "o1" })])
    rfl rfl rfl rfl (by decide)
  exact ⟨h.1, h.2⟩

/-- Claim C9: a `join` carrying a `connection_id` but no `is_sender` field
is not dropped — the joiner is registered as a viewer
(`is_sender = false`) and the responses are exactly those of an explicit
viewer join, cached-offer replay included. -/
theorem join_default_viewer (m : RoomManager) (f rid cid : String)
    (msg : SignalingMessage) (room : Room)
    (hroom : mapGet? rid m.rooms = some room)
    (htype : msg.message_type = .join)
    (hun : msg.is_sender = none)
    (hcid : msg.connection_id = some cid) :
    m.handle_message f rid msg = m.handle_message f rid { msg with is_sender := some false }
    ∧ ((m.handle_message f rid msg).2).isSome = true
    ∧ mapGet? rid ((m.handle_message f rid msg).1).rooms =
        some { room with connections := mapInsert cid (ConnectionInfo.mk cid false) room.connections } := by
  have hac : room.add_connection cid false = .ok ({ room with connections := mapInsert cid (ConnectionInfo.mk cid false) room.connections }, []) := by
    unfold Room.add_connection
    rw [if_neg]
    rintro ⟨h1, h2⟩
    cases h1
  refine ⟨?_, ?_, ?_⟩
  · unfold RoomManager.handle_message
    simp only [hroom, htype, hcid, hun, Option.getD_none, Option.getD_some]
  · unfold RoomManager.handle_message
    simp only [hroom, htype, hcid, hun, Option.getD_none, hac, Option.isSome_some]
  · unfold RoomManager.handle_message
    simp only [hroom, htype, hcid, hun, Option.getD_none, hac]
    exact mapGet?_insert_self _ _ _

/-- Witness for C9: the role-less join of `"V2"` into the one-viewer room
equals the explicit viewer join and registers `"V2"` as a viewer. -/
theorem join_default_viewer_witness :
    mgrOneViewer.handle_message "u2" "r" (mkJoin "V2" none) =
      mgrOneViewer.handle_message "u2" "r" { mkJoin "V2" none with is_sender := some false }
    ∧ ((mgrOneViewer.handle_message "u2" "r" (mkJoin "V2" none)).2).isSome = true
    ∧ mapGet? "r" ((mgrOneViewer.handle_message "u2" "r" (mkJoin "V2" none)).1).rooms =
        some (Room.mk "r" [("V1", ConnectionInfo.mk "V1" false),
          ("V2", ConnectionInfo.mk "V2" false)] []) := by
  have h := join_default_viewer mgrOneViewer "u2" "r" "V2" (mkJoin "V2" none)
    (Room.mk "r" [("V1", ConnectionInfo.mk "V1" false)] []) rfl rfl rfl rfl
  exact ⟨h.1, h.2.1, h.2.2⟩

end WS2Infer
